import Mathlib

/-!
Verification development for the semantiva extensibility layer:
`ContextObserver.update_context` (context_processors/context_observer.py),
`ComponentLoader` and `CustomContextOperationLoader`
(component_loader/component_loader.py).

Python dictionaries are embedded as insertion-ordered association lists;
the three context shapes (flat `ContextType`, `ContextCollectionType`,
`collections.ChainMap`) become a sum type; the process-wide registry sets
become duplicate-free lists in an arbitrary iteration order; the
Python-level module loading and file-execution machinery is abstracted
into outcome environments; exceptions are embedded as a class tag plus message, since
`except` clauses select by class.
-/

/-- A Python `dict` with string keys: insertion-ordered key/value list.
Writing an existing key updates it in place; a new key is appended. -/
structure Dict (α : Type) where
  entries : List (String × α)
deriving DecidableEq

/-- Lookup of a key in the entry list (first hit). -/
def lookupEntries {α : Type} (k : String) : List (String × α) → Option α
  | [] => none
  | (k2, v) :: rest => if k2 = k then some v else lookupEntries k rest

/-- `d[k]` for a Python dict, as an `Option`. -/
def Dict.get {α : Type} (d : Dict α) (k : String) : Option α :=
  lookupEntries k d.entries

/-- Write of a key into the entry list: update in place or append. -/
def setEntries {α : Type} (k : String) (v : α) : List (String × α) → List (String × α)
  | [] => [(k, v)]
  | (k2, v2) :: rest => if k2 = k then (k2, v) :: rest else (k2, v2) :: setEntries k v rest

/-- `d[k] = v` for a Python dict. -/
def Dict.set {α : Type} (d : Dict α) (k : String) (v : α) : Dict α :=
  ⟨setEntries k v d.entries⟩

/-- `del d[k]` for a Python dict (keys are unique, so removing the first
occurrence is the dict behaviour). -/
def delEntries {α : Type} (k : String) : List (String × α) → List (String × α)
  | [] => []
  | (k2, v2) :: rest => if k2 = k then rest else (k2, v2) :: delEntries k rest

/-- `del d[k]`. -/
def Dict.del {α : Type} (d : Dict α) (k : String) : Dict α :=
  ⟨delEntries k d.entries⟩

/-- The three context shapes `update_context` dispatches on:
flat `ContextType`, `ContextCollectionType` (a sequence of per-item
slices), and `collections.ChainMap` (at least one map, innermost first). -/
inductive Ctx (α : Type) where
  | scalar (data : Dict α)
  | collection (slices : List (Dict α))
  | chainMap (first : Dict α) (rest : List (Dict α))
deriving DecidableEq

/-- Modelled from the spec: `ContextCollectionType.set_value` is the
collection-wide write, "visible to every item/slice" (the concrete class
is not under src/). -/
def collectionSetValue {α : Type} (slices : List (Dict α)) (k : String) (v : α) :
    List (Dict α) :=
  slices.map (fun d => d.set k v)

/-- Modelled from the spec: `ContextCollectionType.set_item_value` writes
into exactly the slice at the given 0-based index (the concrete class is
not under src/). -/
def collectionSetItemValue {α : Type} (slices : List (Dict α)) (i : Nat) (k : String)
    (v : α) : List (Dict α) :=
  slices.set i ((slices.getD i ⟨[]⟩).set k v)

/-- `ContextObserver.update_context(context, key, value, index=None)`:
dispatch on the shape of the context, in the source's `isinstance` order
(collection, then `ChainMap`, else flat). The `ChainMap` branch is the
source line `context.maps[0][key] = value`. -/
def ContextObserver.update_context {α : Type} (context : Ctx α) (key : String)
    (value : α) (index : Option Nat) : Ctx α :=
  match context with
  | .collection slices =>
    match index with
    | none => .collection (collectionSetValue slices key value)
    | some i => .collection (collectionSetItemValue slices i key value)
  | .chainMap first rest => .chainMap (first.set key value) rest
  | .scalar data => .scalar (data.set key value)

/-- `ChainMap.__getitem__`: scan the maps front to back, first hit wins. -/
def chainLookup {α : Type} (k : String) : List (Dict α) → Option α
  | [] => none
  | d :: rest =>
    match d.get k with
    | some v => some v
    | none => chainLookup k rest

/-- Read of a key from a `ChainMap` given as first map plus outer maps. -/
def chainGet {α : Type} (first : Dict α) (rest : List (Dict α)) (k : String) : Option α :=
  chainLookup k (first :: rest)

/-- A Python exception class, as far as the `except` clauses of the loader
distinguish them. -/
inductive PyClass where
  | valueError
  | moduleNotFoundError
  | typeError
  | otherClass (name : String)
deriving DecidableEq

/-- A raised Python exception: its class plus its message. -/
structure PyErr where
  cls : PyClass
  msg : String
deriving DecidableEq

/-- A Python type as returned by the loaders: either an ordinary class
(identified by the module attribute that held it), or one of the two
dynamically synthesized context operations. -/
inductive Component where
  | cls (name : String)
  | renameOp (old_key new_key : String)
  | deleteOp (key : String)
deriving DecidableEq

/-- Outcome of `import_module(module_name)`: the import raises
`ModuleNotFoundError`, raises some other exception, or succeeds and
yields the module's attribute table (`getattr` view). -/
inductive ImportOutcome where
  | moduleMissing
  | raises (e : PyErr)
  | ok (attrs : String → Option Component)

/-- Outcome of loading one registered file: the path is not a file, no
loadable spec could be built, executing the file raised, or the file
executed and yields its attribute table. -/
inductive FileOutcome where
  | notAFile
  | noSpec
  | execRaises (e : PyErr)
  | ok (attrs : String → Option Component)

/-- A registered filesystem path (`pathlib.Path`); normalization of the
path string is irrelevant to the claims and not modelled. -/
structure PyPath where
  str : String
deriving DecidableEq

/-- The process-wide registry state `{_registered_modules, _registered_paths}`.
Python stores both as `set`s: membership-deduplicated, iteration order
arbitrary.  Embedded as duplicate-free lists in an arbitrary order, so
every theorem quantifies over all iteration orders. -/
structure Registry where
  modules : List String
  paths : List PyPath
deriving DecidableEq

/-- `set.add`: adding a present element leaves the set (and its iteration
order) unchanged; a new element lands at some position, here the end. -/
def addToSet {β : Type} [DecidableEq β] (xs : List β) (x : β) : List β :=
  if x ∈ xs then xs else xs ++ [x]

/-- The `str | List[str]` argument accepted by both registration methods. -/
inductive StrOrList where
  | one (s : String)
  | many (l : List String)

/-- The `isinstance(arg, str)` wrapping step: a single string becomes a
one-element list. -/
def StrOrList.toList : StrOrList → List String
  | .one s => [s]
  | .many l => l

/-- `ComponentLoader.register_modules`. -/
def ComponentLoader.register_modules (st : Registry) (modules : StrOrList) : Registry :=
  { st with modules := modules.toList.foldl addToSet st.modules }

/-- `ComponentLoader.register_paths` (each string is wrapped as a `Path`). -/
def ComponentLoader.register_paths (st : Registry) (paths : StrOrList) : Registry :=
  { st with paths := paths.toList.foldl (fun acc p => addToSet acc (PyPath.mk p)) st.paths }

/-- `ComponentLoader._get_class_from_module`: import the module; on
`ModuleNotFoundError` return `None`; any other exception propagates; on
success return `getattr(module, class_name, None)`. -/
def ComponentLoader.get_class_from_module (menv : String → ImportOutcome)
    (module_name class_name : String) : Except PyErr (Option Component) :=
  match menv module_name with
  | .moduleMissing => .ok none
  | .raises e => .error e
  | .ok attrs => .ok (attrs class_name)

/-- `ComponentLoader._get_class_from_file`: a missing file or unloadable
spec is `None`; an exception raised while executing the file is caught
(and logged) and becomes `None`; otherwise `getattr(module, class_name, None)`.
No exception ever escapes this function. -/
def ComponentLoader.get_class_from_file (fenv : PyPath → FileOutcome)
    (file_path : PyPath) (class_name : String) : Option Component :=
  match fenv file_path with
  | .notAFile => none
  | .noSpec => none
  | .execRaises _ => none
  | .ok attrs => attrs class_name

/-- The first `for` loop of `get_class`: scan the registered modules in
iteration order; a propagated import error aborts, a found class returns,
`None` moves on to the next module. -/
def scanModules (menv : String → ImportOutcome) (class_name : String) :
    List String → Except PyErr (Option Component)
  | [] => .ok none
  | m :: ms =>
    match ComponentLoader.get_class_from_module menv m class_name with
    | .error e => .error e
    | .ok (some c) => .ok (some c)
    | .ok none => scanModules menv class_name ms

/-- The second `for` loop of `get_class`: scan the registered paths in
iteration order, first hit wins. -/
def scanPaths (fenv : PyPath → FileOutcome) (class_name : String) :
    List PyPath → Option Component
  | [] => none
  | p :: ps =>
    match ComponentLoader.get_class_from_file fenv p class_name with
    | some c => some c
    | none => scanPaths fenv class_name ps

/-- The message of the `ValueError` raised when no source matches. -/
def notFoundMsg (class_name : String) : String :=
  "Class '" ++ class_name ++ "' not found in any of the registered modules and paths."

/-- `ComponentLoader.get_class`: modules first, then paths, else raise
`ValueError` with the not-found message. -/
def ComponentLoader.get_class (menv : String → ImportOutcome)
    (fenv : PyPath → FileOutcome) (st : Registry) (class_name : String) :
    Except PyErr Component :=
  match scanModules menv class_name st.modules with
  | .error e => .error e
  | .ok (some c) => .ok c
  | .ok none =>
    match scanPaths fenv class_name st.paths with
    | some c => .ok c
    | none => .error ⟨.valueError, notFoundMsg class_name⟩

/-- Python `str.startswith`. -/
def pyStartsWith (s p : List Char) : Bool :=
  s.take p.length == p

/-- The regex fragment `(.*?)$` applied to a character list: in Python
`re`, `.` does not match a newline and `$` also matches just before a
single newline that ends the string.  So the match succeeds exactly when
every newline in the input is a single trailing one, and the captured
group is the input without that trailing newline. -/
def dollarCapture : List Char → Option (List Char)
  | [] => some []
  | [c] => if c = '\n' then some [] else some [c]
  | c :: c2 :: cs =>
    if c = '\n' then none else (dollarCapture (c2 :: cs)).map (fun g => c :: g)

/-- The regex fragment `(.*?):(.*?)$` applied to a character list,
following the engine's lazy/backtracking order: the first group grows
character by character (it cannot cross a newline); at each colon the
remainder is tried against `(.*?)$`; the first split whose remainder
matches wins. -/
def splitLazy (acc : List Char) : List Char → Option (List Char × List Char)
  | [] => none
  | c :: cs =>
    if c = ':' then
      match dollarCapture cs with
      | some g2 => some (acc, g2)
      | none => splitLazy (acc ++ [c]) cs
    else if c = '\n' then none
    else splitLazy (acc ++ [c]) cs

/-- `re.match(r"rename:(.*?):(.*?)$", s)`: the literal must lead, then
the two lazy groups. -/
def renameRegexMatch (cs : List Char) : Option (List Char × List Char) :=
  if pyStartsWith cs "rename:".data then splitLazy [] (cs.drop 7) else none

/-- `re.match(r"delete:(.*?)$", s)`. -/
def deleteRegexMatch (cs : List Char) : Option (List Char) :=
  if pyStartsWith cs "delete:".data then dollarCapture (cs.drop 7) else none

/-- The message of the `ValueError` raised for an unknown descriptor. -/
def unknownOpMsg (class_name : String) : String :=
  "Unknown context operation: " ++ class_name

/-- The code of `get_context_operation` that runs after the registry
lookup raised `ValueError`: the `startswith`-guarded regex matches, else
the unknown-operation `ValueError`. -/
def grammarFallback (class_name : String) : Except PyErr Component :=
  if pyStartsWith class_name.data "rename:".data then
    match renameRegexMatch class_name.data with
    | some (o, n) => .ok (.renameOp (String.mk o) (String.mk n))
    | none => .error ⟨.valueError, unknownOpMsg class_name⟩
  else if pyStartsWith class_name.data "delete:".data then
    match deleteRegexMatch class_name.data with
    | some k => .ok (.deleteOp (String.mk k))
    | none => .error ⟨.valueError, unknownOpMsg class_name⟩
  else .error ⟨.valueError, unknownOpMsg class_name⟩

/-- `CustomContextOperationLoader.get_context_operation`: delegate to
`ComponentLoader.get_class`; `except ValueError: pass` — i.e. exactly the
exceptions of class `ValueError` are intercepted and fall through to the
descriptor grammar; any other exception class propagates. -/
def CustomContextOperationLoader.get_context_operation
    (menv : String → ImportOutcome) (fenv : PyPath → FileOutcome)
    (st : Registry) (class_name : String) : Except PyErr Component :=
  match ComponentLoader.get_class menv fenv st class_name with
  | .ok t => .ok t
  | .error e =>
    if e.cls = PyClass.valueError then grammarFallback class_name
    else .error e

/-- Modelled from the spec: the component produced by the external
factory `rename_context_key(old_key, new_key)` (not under src/) "moves a
value from `old_key` to `new_key` in the active context". -/
def renameOpRun {α : Type} (old_key new_key : String) (d : Dict α) : Dict α :=
  match d.get old_key with
  | some v => (d.del old_key).set new_key v
  | none => d

/-- Modelled from the spec: the component produced by the external
factory `delete_context_key(key)` (not under src/) "removes `key` from
the active context". -/
def deleteOpRun {α : Type} (key : String) (d : Dict α) : Dict α :=
  d.del key

/-- An import environment in which no module exists. -/
def menv0 : String → ImportOutcome := fun _ => .moduleMissing

/-- A file environment in which no registered path is a file. -/
def fenv0 : PyPath → FileOutcome := fun _ => .notAFile

/-- The empty registry. -/
def st0 : Registry := ⟨[], []⟩

/-! ## Helper lemmas -/

theorem lookupEntries_set_self {α : Type} (k : String) (v : α) :
    ∀ l : List (String × α), lookupEntries k (setEntries k v l) = some v := by
  intro l
  induction l with
  | nil => simp [setEntries, lookupEntries]
  | cons p rest ih =>
    obtain ⟨k2, v2⟩ := p
    by_cases h : k2 = k
    · simp [setEntries, lookupEntries, h]
    · simp [setEntries, lookupEntries, h, ih]

theorem lookupEntries_set_ne {α : Type} (k k2 : String) (v : α) (hne : k2 ≠ k) :
    ∀ l : List (String × α), lookupEntries k2 (setEntries k v l) = lookupEntries k2 l := by
  intro l
  induction l with
  | nil => simp [setEntries, lookupEntries, hne, Ne.symm hne]
  | cons p rest ih =>
    obtain ⟨k3, v3⟩ := p
    by_cases h : k3 = k
    · subst h
      simp [setEntries, lookupEntries, hne, Ne.symm hne]
    · by_cases h2 : k3 = k2
      · subst h2
        simp [setEntries, lookupEntries, h, ih]
      · simp [setEntries, lookupEntries, h, h2, ih]

theorem Dict.get_set_self {α : Type} (d : Dict α) (k : String) (v : α) :
    (d.set k v).get k = some v :=
  lookupEntries_set_self k v d.entries

theorem Dict.get_set_ne {α : Type} (d : Dict α) (k k2 : String) (v : α) (hne : k2 ≠ k) :
    (d.set k v).get k2 = d.get k2 :=
  lookupEntries_set_ne k k2 v hne d.entries

/-! ## Context update claims -/

/-- C1: on a layered (`ChainMap`) context, `update_context` writes the
key only into the first (innermost) mapping and leaves every outer
mapping unchanged — even when the key already resolves in an outer
mapping — and a subsequent front-to-back read of the key returns the
newly written value. -/
theorem update_context_chainMap_innermost {α : Type} (first : Dict α)
    (rest : List (Dict α)) (key : String) (value : α) (index : Option Nat) :
    ContextObserver.update_context (Ctx.chainMap first rest) key value index
      = Ctx.chainMap (first.set key value) rest ∧
    chainGet (first.set key value) rest key = some value := by
  refine ⟨rfl, ?_⟩
  simp [chainGet, chainLookup, Dict.get_set_self]

/-- C8: on a flat scalar context, `update_context` sets the key directly,
and a supplied `index` has no effect on the result (it is silently
ignored, not rejected). -/
theorem update_context_scalar_ignores_index {α : Type} (data : Dict α)
    (key : String) (value : α) (index : Option Nat) :
    ContextObserver.update_context (Ctx.scalar data) key value index
      = Ctx.scalar (data.set key value) ∧
    ContextObserver.update_context (Ctx.scalar data) key value index
      = ContextObserver.update_context (Ctx.scalar data) key value none :=
  ⟨rfl, rfl⟩

/-- C2: on a collection context of `N` slices, an indexed update modifies
exactly the slice at the given 0-based position and leaves every other
slice unchanged; an update without an index keeps the slice count and
makes the key visible (with the new value) in all `N` slices. -/
theorem update_context_collection_scoping {α : Type} (slices : List (Dict α))
    (key : String) (value : α) (i : Nat) (hi : i < slices.length) :
    (ContextObserver.update_context (Ctx.collection slices) key value (some i)
        = Ctx.collection (collectionSetItemValue slices i key value) ∧
      (collectionSetItemValue slices i key value).length = slices.length ∧
      (collectionSetItemValue slices i key value)[i]?
        = some ((slices.getD i ⟨[]⟩).set key value) ∧
      ∀ j, j ≠ i → (collectionSetItemValue slices i key value)[j]? = slices[j]?) ∧
    (ContextObserver.update_context (Ctx.collection slices) key value none
        = Ctx.collection (collectionSetValue slices key value) ∧
      (collectionSetValue slices key value).length = slices.length ∧
      ∀ j, j < slices.length →
        ((collectionSetValue slices key value).getD j ⟨[]⟩).get key = some value) := by
  refine ⟨⟨rfl, ?_, ?_, ?_⟩, rfl, ?_, ?_⟩
  · simp [collectionSetItemValue]
  · simpa [collectionSetItemValue] using
      List.getElem?_set_eq_of_lt ((slices.getD i ⟨[]⟩).set key value) hi
  · intro j hj
    simpa [collectionSetItemValue] using
      List.getElem?_set_ne (a := (slices.getD i ⟨[]⟩).set key value)
        (l := slices) (Ne.symm hj)
  · simp [collectionSetValue]
  · intro j hj
    have hset : (collectionSetValue slices key value).getD j ⟨[]⟩
        = (slices[j]).set key value := by
      simp [List.getD, collectionSetValue, List.getElem?_map, List.getElem?_eq_getElem hj]
    rw [hset]
    exact Dict.get_set_self _ key value

/-- Concrete check for C2 (the spec's three-slice example): with three
slices, an indexed write at 1 changes only slice 1, and an unindexed
write makes the key visible in all three slices. -/
theorem update_context_collection_scoping_witness :
    ContextObserver.update_context
        (Ctx.collection [⟨[]⟩, ⟨[]⟩, ⟨[]⟩]) "k" (9 : Nat) (some 1)
      = Ctx.collection [⟨[]⟩, ⟨[("k", 9)]⟩, ⟨[]⟩] ∧
    (collectionSetValue [(⟨[]⟩ : Dict Nat), ⟨[]⟩, ⟨[]⟩] "k" 9).length = 3 := by
  have h := update_context_collection_scoping
    [(⟨[]⟩ : Dict Nat), ⟨[]⟩, ⟨[]⟩] "k" 9 1 (by decide)
  refine ⟨?_, h.2.2.1⟩
  rw [h.1.1]
  rfl

/-! ## Registry claims -/

theorem scanModules_append_none (menv : String → ImportOutcome) (class_name : String)
    (ms1 rest : List String)
    (h : ∀ m2 ∈ ms1, ComponentLoader.get_class_from_module menv m2 class_name = .ok none) :
    scanModules menv class_name (ms1 ++ rest) = scanModules menv class_name rest := by
  induction ms1 with
  | nil => rfl
  | cons m ms ih =>
    have hm := h m (by simp)
    have hrest : ∀ m2 ∈ ms, ComponentLoader.get_class_from_module menv m2 class_name
        = .ok none := fun m2 hm2 => h m2 (by simp [hm2])
    simp [scanModules, hm, ih hrest]

/-- C3: whenever the scan of the registered namespaces yields a match,
`get_class` returns exactly that match, for every file environment and
every registered-path list — so a name resolvable from both a namespace
and a path resolves to the namespace match — and the match is the one of
the first namespace (in iteration order) that resolves the name, every
earlier namespace having come up empty. -/
theorem get_class_namespace_first {menv : String → ImportOutcome}
    {class_name : String} {modules : List String} {c : Component}
    (h : scanModules menv class_name modules = .ok (some c)) :
    (∀ (fenv : PyPath → FileOutcome) (paths : List PyPath),
      ComponentLoader.get_class menv fenv ⟨modules, paths⟩ class_name = .ok c) ∧
    ∃ ms1 m ms2, modules = ms1 ++ m :: ms2 ∧
      (∀ m2 ∈ ms1, ComponentLoader.get_class_from_module menv m2 class_name = .ok none) ∧
      ComponentLoader.get_class_from_module menv m class_name = .ok (some c) := by
  constructor
  · intro fenv paths
    unfold ComponentLoader.get_class
    rw [h]
  · induction modules with
    | nil => simp [scanModules] at h
    | cons m ms ih =>
      cases hm : ComponentLoader.get_class_from_module menv m class_name with
      | error e => simp [scanModules, hm] at h
      | ok oc =>
        cases oc with
        | some c2 =>
          simp [scanModules, hm] at h
          exact ⟨[], m, ms, rfl, by simp, by rw [hm, h]⟩
        | none =>
          have h2 : scanModules menv class_name ms = .ok (some c) := by
            simpa [scanModules, hm] using h
          obtain ⟨ms1, m2, ms2, heq, hnone, hfound⟩ := ih h2
          exact ⟨m :: ms1, m2, ms2, by simp [heq],
            by
              intro m3 hm3
              rcases List.mem_cons.mp hm3 with h3 | h3
              · rw [h3]; exact hm
              · exact hnone m3 h3,
            hfound⟩

/-- An import environment with one module resolving `Foo`. -/
def menvC3 : String → ImportOutcome := fun m =>
  if m = "good_module" then
    .ok (fun n => if n = "Foo" then some (.cls "Foo@module") else none)
  else .moduleMissing

/-- A file environment in which every registered path also resolves `Foo`
(to a different class), so namespace precedence is observable. -/
def fenvC3 : PyPath → FileOutcome := fun _ =>
  .ok (fun n => if n = "Foo" then some (.cls "Foo@file") else none)

/-- Witness for C3: `Foo` is resolvable from both the namespace and the
registered path; the namespace match is returned. -/
theorem get_class_namespace_first_witness :
    ComponentLoader.get_class menvC3 fenvC3 ⟨["good_module"], [⟨"plugins.py"⟩]⟩ "Foo"
      = .ok (.cls "Foo@module") :=
  (get_class_namespace_first (by rfl)).1 fenvC3 [⟨"plugins.py"⟩]

/-- C4: a namespace whose import raises `ModuleNotFoundError` is "no
match" and the module scan continues with the remaining namespaces; a
namespace whose import raises any other exception makes `get_class`
propagate that exception to the caller; a file whose execution raises is
demoted to "no match" for that path only and the path scan continues with
the remaining paths. -/
theorem load_failure_asymmetry (menv : String → ImportOutcome)
    (fenv : PyPath → FileOutcome) (class_name m : String) (p : PyPath) (e : PyErr) :
    (menv m = .moduleMissing →
      ComponentLoader.get_class_from_module menv m class_name = .ok none ∧
      ∀ ms, scanModules menv class_name (m :: ms) = scanModules menv class_name ms) ∧
    (menv m = .raises e →
      ComponentLoader.get_class_from_module menv m class_name = .error e ∧
      ∀ ms1 ms2 paths,
        (∀ m2 ∈ ms1, ComponentLoader.get_class_from_module menv m2 class_name = .ok none) →
        ComponentLoader.get_class menv fenv ⟨ms1 ++ m :: ms2, paths⟩ class_name
          = .error e) ∧
    (fenv p = .execRaises e →
      ComponentLoader.get_class_from_file fenv p class_name = none ∧
      ∀ ps, scanPaths fenv class_name (p :: ps) = scanPaths fenv class_name ps) := by
  refine ⟨fun hmiss => ⟨?_, ?_⟩, fun hraise => ⟨?_, ?_⟩, fun hexec => ⟨?_, ?_⟩⟩
  · simp [ComponentLoader.get_class_from_module, hmiss]
  · intro ms
    simp [scanModules, ComponentLoader.get_class_from_module, hmiss]
  · simp [ComponentLoader.get_class_from_module, hraise]
  · intro ms1 ms2 paths hnone
    unfold ComponentLoader.get_class
    rw [scanModules_append_none menv class_name ms1 (m :: ms2) hnone]
    simp [scanModules, ComponentLoader.get_class_from_module, hraise]
  · simp [ComponentLoader.get_class_from_file, hexec]
  · intro ps
    simp [scanPaths, ComponentLoader.get_class_from_file, hexec]

/-- An import environment with one module that is missing and one
whose top-level code raises a `TypeError` at import time. -/
def menvMixed : String → ImportOutcome := fun m =>
  if m = "broken_module" then .raises ⟨.typeError, "boom"⟩ else .moduleMissing

/-- A file environment in which every registered file raises while being
executed. -/
def fenvRaising : PyPath → FileOutcome := fun _ =>
  .execRaises ⟨.otherClass "RuntimeError", "bad plugin"⟩

/-- Witness for C4: a missing module is skipped, a broken import (reached
after a missing one) aborts `get_class` with the import's exception, and
a raising file is skipped by the path scan. -/
theorem load_failure_asymmetry_witness :
    scanModules menvMixed "Foo" ["absent_module"] = scanModules menvMixed "Foo" [] ∧
    ComponentLoader.get_class menvMixed fenvRaising
        ⟨["absent_module", "broken_module"], [⟨"plugins.py"⟩]⟩ "Foo"
      = .error ⟨.typeError, "boom"⟩ ∧
    scanPaths fenvRaising "Foo" [⟨"plugins.py"⟩] = scanPaths fenvRaising "Foo" [] := by
  refine ⟨?_, ?_, ?_⟩
  · exact ((load_failure_asymmetry menvMixed fenvRaising "Foo" "absent_module"
      ⟨"plugins.py"⟩ ⟨.typeError, "boom"⟩).1 (by rfl)).2 []
  · exact ((load_failure_asymmetry menvMixed fenvRaising "Foo" "broken_module"
      ⟨"plugins.py"⟩ ⟨.typeError, "boom"⟩).2.1 (by rfl)).2
      ["absent_module"] [] [⟨"plugins.py"⟩] (by
        intro m2 hm2
        simp at hm2
        subst hm2
        rfl)
  · exact ((load_failure_asymmetry menvMixed fenvRaising "Foo" "broken_module"
      ⟨"plugins.py"⟩ ⟨.otherClass "RuntimeError", "bad plugin"⟩).2.2 (by rfl)).2 []

theorem addToSet_mem {β : Type} [DecidableEq β] (xs : List β) (x : β) (h : x ∈ xs) :
    addToSet xs x = xs := by
  simp [addToSet, h]

theorem addToSet_idem {β : Type} [DecidableEq β] (xs : List β) (x : β) :
    addToSet (addToSet xs x) x = addToSet xs x := by
  by_cases h : x ∈ xs
  · simp [addToSet, h]
  · simp [addToSet, h]

/-- C9: registration is idempotent — registering an already-registered
namespace or path leaves the registry state unchanged, registering the
same value twice equals registering it once, and hence `get_class`
behaves identically; both methods accept a single string or a list of
strings, a single string being equivalent to the one-element list. -/
theorem registration_idempotent (st : Registry) (m p : String) :
    (m ∈ st.modules → ComponentLoader.register_modules st (.one m) = st) ∧
    (PyPath.mk p ∈ st.paths → ComponentLoader.register_paths st (.one p) = st) ∧
    ComponentLoader.register_modules (ComponentLoader.register_modules st (.one m)) (.one m)
      = ComponentLoader.register_modules st (.one m) ∧
    ComponentLoader.register_paths (ComponentLoader.register_paths st (.one p)) (.one p)
      = ComponentLoader.register_paths st (.one p) ∧
    ComponentLoader.register_modules st (.one m)
      = ComponentLoader.register_modules st (.many [m]) ∧
    ComponentLoader.register_paths st (.one p)
      = ComponentLoader.register_paths st (.many [p]) ∧
    (∀ (menv : String → ImportOutcome) (fenv : PyPath → FileOutcome) (class_name : String),
      m ∈ st.modules →
      ComponentLoader.get_class menv fenv (ComponentLoader.register_modules st (.one m))
          class_name
        = ComponentLoader.get_class menv fenv st class_name) := by
  have hmod : ∀ h : m ∈ st.modules, ComponentLoader.register_modules st (.one m) = st := by
    intro h
    simp [ComponentLoader.register_modules, StrOrList.toList, addToSet_mem st.modules m h]
  refine ⟨hmod, ?_, ?_, ?_, rfl, rfl, ?_⟩
  · intro h
    simp [ComponentLoader.register_paths, StrOrList.toList, addToSet_mem st.paths _ h]
  · simp [ComponentLoader.register_modules, StrOrList.toList, addToSet_idem]
  · simp [ComponentLoader.register_paths, StrOrList.toList, addToSet_idem]
  · intro menv fenv class_name h
    rw [hmod h]

/-- Witness for C9: re-registering the module `"m1"` and the path `"p1"`
of a concrete registry leaves it unchanged, and `get_class` resolves
identically before and after. -/
theorem registration_idempotent_witness :
    ComponentLoader.register_modules ⟨["m1"], [⟨"p1"⟩]⟩ (.one "m1") = ⟨["m1"], [⟨"p1"⟩]⟩ ∧
    ComponentLoader.register_paths ⟨["m1"], [⟨"p1"⟩]⟩ (.one "p1") = ⟨["m1"], [⟨"p1"⟩]⟩ ∧
    ComponentLoader.get_class menv0 fenv0
        (ComponentLoader.register_modules ⟨["m1"], [⟨"p1"⟩]⟩ (.one "m1")) "Foo"
      = ComponentLoader.get_class menv0 fenv0 ⟨["m1"], [⟨"p1"⟩]⟩ "Foo" :=
  ⟨(registration_idempotent ⟨["m1"], [⟨"p1"⟩]⟩ "m1" "p1").1 (by decide),
   (registration_idempotent ⟨["m1"], [⟨"p1"⟩]⟩ "m1" "p1").2.1 (by decide),
   (registration_idempotent ⟨["m1"], [⟨"p1"⟩]⟩ "m1" "p1").2.2.2.2.2.2 menv0 fenv0 "Foo"
     (by decide)⟩

/-! ## Descriptor grammar claims -/

theorem dollarCapture_no_newline (t : List Char) (h : '\n' ∉ t) :
    dollarCapture t = some t := by
  induction t with
  | nil => rfl
  | cons c cs ih =>
    simp only [List.mem_cons, not_or] at h
    have hc : ¬ c = '\n' := fun hcc => h.1 (hcc.symm)
    cases cs with
    | nil => simp [dollarCapture, hc]
    | cons c2 cs2 =>
      have ih2 := ih (by simpa using h.2)
      simp [dollarCapture, hc, ih2]

theorem splitLazy_no_colon (t : List Char) (h : ':' ∉ t) :
    ∀ acc, splitLazy acc t = none := by
  induction t with
  | nil => intro acc; rfl
  | cons c cs ih =>
    intro acc
    simp only [List.mem_cons, not_or] at h
    have hc : ¬ c = ':' := fun hcc => h.1 (hcc.symm)
    by_cases hn : c = '\n'
    · simp [splitLazy, hc, hn]
    · simp [splitLazy, hc, hn, ih (by simpa using h.2)]

theorem splitLazy_first_colon (t : List Char) (hnl : '\n' ∉ t) (hc : ':' ∈ t) :
    ∀ acc, splitLazy acc t
      = some (acc ++ t.takeWhile (fun c => c != ':'),
          (t.dropWhile (fun c => c != ':')).tail) := by
  induction t with
  | nil => exact absurd hc (by simp)
  | cons c cs ih =>
    intro acc
    simp only [List.mem_cons, not_or] at hnl
    by_cases h : c = ':'
    · subst h
      simp [splitLazy, dollarCapture_no_newline cs (by simpa using hnl.2),
        List.takeWhile, List.dropWhile]
    · have hn : ¬ c = '\n' := fun hcc => hnl.1 (hcc.symm)
      have hcs : ':' ∈ cs := by
        rcases List.mem_cons.mp hc with h2 | h2
        · exact absurd h2.symm h
        · exact h2
      have ih2 := ih (by simpa using hnl.2) hcs (acc ++ [c])
      have hb : (c != ':') = true := by simp [h]
      simp [splitLazy, h, hn, ih2, hb, List.takeWhile, List.dropWhile]

theorem pyStartsWith_append (p t : List Char) : pyStartsWith (p ++ t) p = true := by
  simp [pyStartsWith, List.take_left]

theorem drop7_rename (t : List Char) : ("rename:".data ++ t).drop 7 = t := by
  rw [show (7 : Nat) = "rename:".data.length from rfl]
  exact List.drop_left _ _

theorem drop7_delete (t : List Char) : ("delete:".data ++ t).drop 7 = t := by
  rw [show (7 : Nat) = "delete:".data.length from rfl]
  exact List.drop_left _ _

theorem pyStartsWith_delete_not_rename (t : List Char) :
    pyStartsWith ("delete:".data ++ t) "rename:".data = false := by
  have h : ("delete:".data ++ t).take ("rename:".data.length) = "delete:".data := by
    rw [show "rename:".data.length = "delete:".data.length from rfl]
    exact List.take_left _ _
  unfold pyStartsWith
  rw [h]
  decide

theorem grammarFallback_error_eq (n : String) (e : PyErr)
    (h : grammarFallback n = .error e) : e = ⟨.valueError, unknownOpMsg n⟩ := by
  unfold grammarFallback at h
  split at h
  · split at h
    · simp at h
    · exact (Except.error.inj h).symm
  · split at h
    · split at h
      · simp at h
      · exact (Except.error.inj h).symm
    · exact (Except.error.inj h).symm

theorem get_class_not_found (menv : String → ImportOutcome) (fenv : PyPath → FileOutcome)
    (st : Registry) (class_name : String)
    (h1 : scanModules menv class_name st.modules = .ok none)
    (h2 : scanPaths fenv class_name st.paths = none) :
    ComponentLoader.get_class menv fenv st class_name
      = .error ⟨.valueError, notFoundMsg class_name⟩ := by
  unfold ComponentLoader.get_class
  rw [h1, h2]

theorem get_context_operation_not_found_grammar (menv : String → ImportOutcome)
    (fenv : PyPath → FileOutcome) (st : Registry) (class_name : String)
    (h1 : scanModules menv class_name st.modules = .ok none)
    (h2 : scanPaths fenv class_name st.paths = none) :
    CustomContextOperationLoader.get_context_operation menv fenv st class_name
      = grammarFallback class_name := by
  unfold CustomContextOperationLoader.get_context_operation
  rw [get_class_not_found menv fenv st class_name h1 h2]
  simp

theorem grammarFallback_rename_colon (t : List Char) (hnl : '\n' ∉ t) (hc : ':' ∈ t) :
    grammarFallback (String.mk ("rename:".data ++ t))
      = .ok (.renameOp (String.mk (t.takeWhile (fun c => c != ':')))
          (String.mk ((t.dropWhile (fun c => c != ':')).tail))) := by
  unfold grammarFallback renameRegexMatch
  have hd : (String.mk ("rename:".data ++ t)).data = "rename:".data ++ t := rfl
  rw [hd, pyStartsWith_append, drop7_rename, splitLazy_first_colon t hnl hc []]
  simp

theorem grammarFallback_rename_no_colon (t : List Char) (hc : ':' ∉ t) :
    grammarFallback (String.mk ("rename:".data ++ t))
      = .error ⟨.valueError, unknownOpMsg (String.mk ("rename:".data ++ t))⟩ := by
  unfold grammarFallback renameRegexMatch
  have hd : (String.mk ("rename:".data ++ t)).data = "rename:".data ++ t := rfl
  rw [hd, pyStartsWith_append, drop7_rename, splitLazy_no_colon t hc []]
  simp

theorem grammarFallback_delete (t : List Char) (hnl : '\n' ∉ t) :
    grammarFallback (String.mk ("delete:".data ++ t))
      = .ok (.deleteOp (String.mk t)) := by
  unfold grammarFallback deleteRegexMatch
  have hd : (String.mk ("delete:".data ++ t)).data = "delete:".data ++ t := rfl
  rw [hd, pyStartsWith_delete_not_rename, pyStartsWith_append, drop7_delete,
    dollarCapture_no_newline t hnl]
  simp

/-- An import environment in which the top-level code of `broken_module`
raises a `ValueError` during import (an import failure, not the
registry's not-found failure). -/
def menvValueErrRaise : String → ImportOutcome := fun m =>
  if m = "broken_module" then .raises ⟨.valueError, "boom"⟩ else .moduleMissing

/-- Counterexample to C5: the registry propagates a `ValueError` raised
by a broken module import — a load failure whose message `"boom"` is not
the not-found message — yet `get_context_operation` intercepts it (the
`except` clause selects by exception class, not by failure kind) and
proceeds to grammar matching, returning the rename component instead of
propagating the error. -/
theorem get_context_operation_intercepts_import_valueerror :
    ComponentLoader.get_class menvValueErrRaise fenv0 ⟨["broken_module"], []⟩ "rename:a:b"
      = .error ⟨.valueError, "boom"⟩ ∧
    ("boom" : String) ≠ notFoundMsg "rename:a:b" ∧
    CustomContextOperationLoader.get_context_operation menvValueErrRaise fenv0
        ⟨["broken_module"], []⟩ "rename:a:b"
      = .ok (.renameOp "a" "b") :=
  ⟨rfl, by decide, rfl⟩

/-- C5 (amended): `get_context_operation` first delegates to
`ComponentLoader.get_class` and returns that type if resolution succeeds;
it intercepts exactly the failures of Python class `ValueError` — the
class the registry's "not found" failure is raised with, but also any
`ValueError` propagated from a module import — and attempts the
rename/delete descriptor-grammar matching on those; a failure of any
other exception class is not intercepted. -/
theorem get_context_operation_delegation (menv : String → ImportOutcome)
    (fenv : PyPath → FileOutcome) (st : Registry) (class_name : String) :
    (∀ t, ComponentLoader.get_class menv fenv st class_name = .ok t →
      CustomContextOperationLoader.get_context_operation menv fenv st class_name
        = .ok t) ∧
    (∀ e, ComponentLoader.get_class menv fenv st class_name = .error e →
      e.cls ≠ PyClass.valueError →
      CustomContextOperationLoader.get_context_operation menv fenv st class_name
        = .error e) ∧
    (∀ e, ComponentLoader.get_class menv fenv st class_name = .error e →
      e.cls = PyClass.valueError →
      CustomContextOperationLoader.get_context_operation menv fenv st class_name
        = grammarFallback class_name) := by
  refine ⟨fun t ht => ?_, fun e he hne => ?_, fun e he hcls => ?_⟩
  · unfold CustomContextOperationLoader.get_context_operation
    rw [ht]
  · unfold CustomContextOperationLoader.get_context_operation
    rw [he]
    simp [hne]
  · unfold CustomContextOperationLoader.get_context_operation
    rw [he]
    simp [hcls]

/-- Witness for C5 (amended): a successful resolution is returned as is,
a `TypeError` propagated from a broken import is not intercepted, and the
not-found `ValueError` leads into the descriptor grammar. -/
theorem get_context_operation_delegation_witness :
    CustomContextOperationLoader.get_context_operation menvC3 fenv0
        ⟨["good_module"], []⟩ "Foo" = .ok (.cls "Foo@module") ∧
    CustomContextOperationLoader.get_context_operation menvMixed fenv0
        ⟨["broken_module"], []⟩ "Foo" = .error ⟨.typeError, "boom"⟩ ∧
    CustomContextOperationLoader.get_context_operation menv0 fenv0 st0 "delete:k"
      = grammarFallback "delete:k" :=
  ⟨(get_context_operation_delegation menvC3 fenv0 ⟨["good_module"], []⟩ "Foo").1
      (.cls "Foo@module") rfl,
   (get_context_operation_delegation menvMixed fenv0 ⟨["broken_module"], []⟩ "Foo").2.1
      ⟨.typeError, "boom"⟩ rfl (by decide),
   (get_context_operation_delegation menv0 fenv0 st0 "delete:k").2.2
      ⟨.valueError, notFoundMsg "delete:k"⟩ rfl rfl⟩

/-- C6: when no registered source yields a match, `get_class` fails with
the not-found `ValueError` whose message contains the requested name
verbatim; and when, in addition, the descriptor-grammar matching fails,
`get_context_operation` fails with the unknown-context-operation
`ValueError` whose message contains the literal descriptor verbatim. -/
theorem error_messages_carry_lookup_string (menv : String → ImportOutcome)
    (fenv : PyPath → FileOutcome) (st : Registry) (class_name : String) :
    (scanModules menv class_name st.modules = .ok none →
      scanPaths fenv class_name st.paths = none →
      ∃ pre post, ComponentLoader.get_class menv fenv st class_name
        = .error ⟨.valueError, pre ++ class_name ++ post⟩) ∧
    (scanModules menv class_name st.modules = .ok none →
      scanPaths fenv class_name st.paths = none →
      ∀ e, grammarFallback class_name = .error e →
      ∃ pre post, CustomContextOperationLoader.get_context_operation menv fenv st class_name
        = .error ⟨.valueError, pre ++ class_name ++ post⟩) := by
  constructor
  · intro h1 h2
    exact ⟨"Class '", "' not found in any of the registered modules and paths.",
      get_class_not_found menv fenv st class_name h1 h2⟩
  · intro h1 h2 e he
    refine ⟨"Unknown context operation: ", "", ?_⟩
    rw [get_context_operation_not_found_grammar menv fenv st class_name h1 h2, he,
      grammarFallback_error_eq class_name e he]
    simp [unknownOpMsg]

/-- Witness for C6: with an empty registry, resolving `nope` yields the
not-found message containing `nope`, and the unresolvable descriptor
`nope` yields the unknown-operation message containing `nope`. -/
theorem error_messages_carry_lookup_string_witness :
    (∃ pre post, ComponentLoader.get_class menv0 fenv0 st0 "nope"
      = .error ⟨.valueError, pre ++ "nope" ++ post⟩) ∧
    (∃ pre post, CustomContextOperationLoader.get_context_operation menv0 fenv0 st0 "nope"
      = .error ⟨.valueError, pre ++ "nope" ++ post⟩) :=
  ⟨(error_messages_carry_lookup_string menv0 fenv0 st0 "nope").1 rfl rfl,
   (error_messages_carry_lookup_string menv0 fenv0 st0 "nope").2 rfl rfl
      ⟨.valueError, unknownOpMsg "nope"⟩ rfl⟩

/-- C7: for a descriptor the registry cannot resolve, a successful match
of the rename regex produces the rename-factory component bound to the
two captured keys, and a successful match of the delete regex produces
the delete-factory component bound to the captured key; concretely, the
rename component applied to a context holding `a = 5` yields `b = 5`
with `a` absent, and the delete component applied to `{a: 5, c: 7}`
yields `{c: 7}`. -/
theorem descriptor_grammar_rename_delete (menv : String → ImportOutcome)
    (fenv : PyPath → FileOutcome) (st : Registry) :
    (∀ (name : String) (o n : List Char),
      scanModules menv name st.modules = .ok none →
      scanPaths fenv name st.paths = none →
      renameRegexMatch name.data = some (o, n) →
      CustomContextOperationLoader.get_context_operation menv fenv st name
        = .ok (.renameOp (String.mk o) (String.mk n))) ∧
    (∀ (name : String) (k : List Char),
      scanModules menv name st.modules = .ok none →
      scanPaths fenv name st.paths = none →
      pyStartsWith name.data "rename:".data = false →
      deleteRegexMatch name.data = some k →
      CustomContextOperationLoader.get_context_operation menv fenv st name
        = .ok (.deleteOp (String.mk k))) ∧
    ((renameOpRun "a" "b" (⟨[("a", 5)]⟩ : Dict Nat)).get "b" = some 5 ∧
      (renameOpRun "a" "b" (⟨[("a", 5)]⟩ : Dict Nat)).get "a" = none) ∧
    deleteOpRun "a" (⟨[("a", 5), ("c", 7)]⟩ : Dict Nat) = ⟨[("c", 7)]⟩ := by
  refine ⟨fun name o n h1 h2 hm => ?_, fun name k h1 h2 hrw hm => ?_,
    ⟨rfl, rfl⟩, rfl⟩
  · have hsw : pyStartsWith name.data "rename:".data = true := by
      by_contra hsw
      rw [Bool.not_eq_true] at hsw
      unfold renameRegexMatch at hm
      rw [hsw] at hm
      simp at hm
    rw [get_context_operation_not_found_grammar menv fenv st name h1 h2]
    unfold grammarFallback renameRegexMatch
    rw [hsw]
    unfold renameRegexMatch at hm
    rw [hsw] at hm
    simp only [if_true] at hm ⊢
    rw [hm]
  · have hsd : pyStartsWith name.data "delete:".data = true := by
      by_contra hsd
      rw [Bool.not_eq_true] at hsd
      unfold deleteRegexMatch at hm
      rw [hsd] at hm
      simp at hm
    rw [get_context_operation_not_found_grammar menv fenv st name h1 h2]
    unfold grammarFallback deleteRegexMatch
    rw [hrw, hsd]
    unfold deleteRegexMatch at hm
    rw [hsd] at hm
    simp only [Bool.false_eq_true, if_false, if_true] at hm ⊢
    rw [hm]

/-- Witness for C7: with an empty registry, `rename:a:b` resolves to the
rename component for `(a, b)` and `delete:a` to the delete component for
`a`. -/
theorem descriptor_grammar_rename_delete_witness :
    CustomContextOperationLoader.get_context_operation menv0 fenv0 st0 "rename:a:b"
      = .ok (.renameOp "a" "b") ∧
    CustomContextOperationLoader.get_context_operation menv0 fenv0 st0 "delete:a"
      = .ok (.deleteOp "a") :=
  ⟨(descriptor_grammar_rename_delete menv0 fenv0 st0).1 "rename:a:b"
      "a".data "b".data rfl rfl rfl,
   (descriptor_grammar_rename_delete menv0 fenv0 st0).2.1 "delete:a"
      "a".data rfl rfl rfl rfl⟩

/-- Counterexample to C10: the descriptor `rename:a\nb:c` has the form
`rename:` followed by text containing a colon, so the claim says it binds
`old_key = "a\nb"`, `new_key = "c"`; but in Python `re` the lazy groups
cannot cross the newline, the regex fails to match, and the call raises
the unknown-context-operation error instead. -/
theorem descriptor_newline_counterexample :
    ':' ∈ ("a\nb:c".data) ∧
    CustomContextOperationLoader.get_context_operation menv0 fenv0 st0 "rename:a\nb:c"
      = .error ⟨.valueError, unknownOpMsg "rename:a\nb:c"⟩ ∧
    CustomContextOperationLoader.get_context_operation menv0 fenv0 st0 "rename:a\nb:c"
      ≠ .ok (.renameOp "a\nb" "c") :=
  ⟨by decide, rfl, fun h => Except.noConfusion h⟩

/-- C10 (amended): for a newline-free text `t` unresolvable by the
registry, the grammar splits at the first colon and accepts empty
captures: `rename:` followed by `t` containing a colon binds
`old_key` = the text before the first colon and `new_key` = everything
after it (further colons included); `rename:` followed by colon-free `t`
matches neither pattern and raises the unknown-operation error; and
`delete:` followed by `t` binds `t` itself (so `delete:` binds the empty
key). Text containing a newline can fail to match (see the
counterexample), which is the one restriction added to the claim. -/
theorem descriptor_split_first_colon (menv : String → ImportOutcome)
    (fenv : PyPath → FileOutcome) (st : Registry) (t : List Char) (hnl : '\n' ∉ t) :
    (':' ∈ t →
      scanModules menv (String.mk ("rename:".data ++ t)) st.modules = .ok none →
      scanPaths fenv (String.mk ("rename:".data ++ t)) st.paths = none →
      CustomContextOperationLoader.get_context_operation menv fenv st
          (String.mk ("rename:".data ++ t))
        = .ok (.renameOp (String.mk (t.takeWhile (fun c => c != ':')))
            (String.mk ((t.dropWhile (fun c => c != ':')).tail)))) ∧
    (':' ∉ t →
      scanModules menv (String.mk ("rename:".data ++ t)) st.modules = .ok none →
      scanPaths fenv (String.mk ("rename:".data ++ t)) st.paths = none →
      CustomContextOperationLoader.get_context_operation menv fenv st
          (String.mk ("rename:".data ++ t))
        = .error ⟨.valueError, unknownOpMsg (String.mk ("rename:".data ++ t))⟩) ∧
    (scanModules menv (String.mk ("delete:".data ++ t)) st.modules = .ok none →
      scanPaths fenv (String.mk ("delete:".data ++ t)) st.paths = none →
      CustomContextOperationLoader.get_context_operation menv fenv st
          (String.mk ("delete:".data ++ t))
        = .ok (.deleteOp (String.mk t))) := by
  refine ⟨fun hc h1 h2 => ?_, fun hc h1 h2 => ?_, fun h1 h2 => ?_⟩
  · rw [get_context_operation_not_found_grammar menv fenv st _ h1 h2]
    exact grammarFallback_rename_colon t hnl hc
  · rw [get_context_operation_not_found_grammar menv fenv st _ h1 h2]
    exact grammarFallback_rename_no_colon t hc
  · rw [get_context_operation_not_found_grammar menv fenv st _ h1 h2]
    exact grammarFallback_delete t hnl

/-- Witness for C10 (amended): with an empty registry, `rename:a:b:c`
binds `("a", "b:c")`, `rename::x` binds `("", "x")`, `rename:ab` (no
second colon) raises the unknown-operation error, and `delete:` binds the
empty key. -/
theorem descriptor_split_first_colon_witness :
    CustomContextOperationLoader.get_context_operation menv0 fenv0 st0 "rename:a:b:c"
      = .ok (.renameOp "a" "b:c") ∧
    CustomContextOperationLoader.get_context_operation menv0 fenv0 st0 "rename::x"
      = .ok (.renameOp "" "x") ∧
    CustomContextOperationLoader.get_context_operation menv0 fenv0 st0 "rename:ab"
      = .error ⟨.valueError, unknownOpMsg "rename:ab"⟩ ∧
    CustomContextOperationLoader.get_context_operation menv0 fenv0 st0 "delete:"
      = .ok (.deleteOp "") :=
  ⟨(descriptor_split_first_colon menv0 fenv0 st0 "a:b:c".data (by decide)).1
      (by decide) rfl rfl,
   (descriptor_split_first_colon menv0 fenv0 st0 ":x".data (by decide)).1
      (by decide) rfl rfl,
   (descriptor_split_first_colon menv0 fenv0 st0 "ab".data (by decide)).2.1
      (by decide) rfl rfl,
   (descriptor_split_first_colon menv0 fenv0 st0 "".data (by decide)).2.2 rfl rfl⟩
